import Mathlib

/-!
Verification of the data model of cairoplot (src/cairoplot/series.py):
the `Data` named-point class and the `Series` collection class, with their
validation and normalization logic, shallowly embedded in Lean.

Python numbers (the members of NUM_TYPES: int, float, long) are modelled
by `Int`: the module only type-tests, stores and compares them, never
does arithmetic on them. Property setters are modelled as functions from
the previous stored field value and the assigned Python value to the
stored field value after the assignment together with the `TypeError`
raised, if any (Python setters mutate even on some failing paths, so the
post-state must be returned alongside the error).
-/

set_option autoImplicit false

set_option linter.unnecessarySeqFocus false

/-- The value stored in a `Data` instance's `_content` field: `None`, a
3-tuple of numbers, or the numeric `0` placeholder written by the
unknown-type failure branch of the content setter (series.py line 102). -/
inductive StoredContent where
  | null : StoredContent
  | triple : Int → Int → Int → StoredContent
  | zero : StoredContent
deriving DecidableEq, BEq

/-- The `TypeError`s the module raises, distinguished by the raise site
(the spec's symbolic error kinds), plus `sliceError` for the `TypeError`
that `Data.copy` hits when it slices unsubscriptable content
(`None[:]` or `0[:]`). -/
inductive Err where
  | contentType : Err
  | contentArity : Err
  | contentElemType : Err
  | nameType : Err
  | seriesType : Err
  | seriesMixedShape : Err
  | sliceError : Err
deriving DecidableEq, BEq

/-- The stored fields of a `Data` instance: `_name` and `_content`. -/
structure Data where
  name : Option String
  content : StoredContent
deriving DecidableEq, BEq

/-- A Python value, as far as the series module inspects values:
`None`, a number, a tuple, a string, a list, a `Data` instance, or
anything else (`other` stands for every remaining type, e.g. dict,
bool, Series — all of which fail every `type(x) in ...` test the
module performs). -/
inductive PyVal where
  | pynone : PyVal
  | num : Int → PyVal
  | tup : List PyVal → PyVal
  | str : String → PyVal
  | pylist : List PyVal → PyVal
  | dataObj : Data → PyVal
  | other : PyVal

/-- `type(x) in NUM_TYPES` (series.py line 27). -/
def isNum : PyVal → Bool
  | .num _ => true
  | _ => false

/-- `type(x) is tuple`. -/
def isTup : PyVal → Bool
  | .tup _ => true
  | _ => false

/-- `content[i]` for a tuple that has already been checked to contain
only numbers (returns 0 on out-of-range or non-number, which the
callers' guards make unreachable). -/
def idxNum (xs : List PyVal) (i : Nat) : Int :=
  match xs.getD i .pynone with
  | .num n => n
  | _ => 0

/-- The `Data.content` property setter (series.py lines 70-103), acting
on the stored `_content` field: `None` is stored as `None`; a number `n`
as `(n, 0, 0)`; a tuple is rejected if its length is not 2 or 3
(arity error) or some element is not a number (element-type error), and
otherwise padded to a 3-tuple; any other type stores the placeholder `0`
and raises the content-type error. The arity and element-type branches
raise without assigning, so the previous field value survives. -/
def Data.setContent (prev : StoredContent) (content : PyVal) : StoredContent × Option Err :=
  match content with
  | .pynone => (.null, Option.none)
  | .num n => (.triple n 0 0, Option.none)
  | .tup xs =>
      if xs.length ≠ 2 ∧ xs.length ≠ 3 then (prev, some .contentArity)
      else if xs.any (fun x => !(isNum x)) then (prev, some .contentElemType)
      else if xs.length = 2 then (.triple (idxNum xs 0) (idxNum xs 1) 0, Option.none)
      else (.triple (idxNum xs 0) (idxNum xs 1) (idxNum xs 2), Option.none)
  | _ => (.zero, some .contentType)

/-- The `Data.name` property setter (series.py lines 118-127): a
non-empty string is stored; `None` is stored; anything else (including
the empty string) stores `None` and raises. The setter never reads the
previous value, so it takes none. -/
def Data.setName (name : PyVal) : Option String × Option Err :=
  match name with
  | .str s => if 0 < s.length then (some s, Option.none) else (Option.none, some .nameType)
  | .pynone => (Option.none, Option.none)
  | _ => (Option.none, some .nameType)

/-- Assignment `d.content = v` on a whole `Data` instance. -/
def Data.setContentOn (d : Data) (v : PyVal) : Data × Option Err :=
  let r := Data.setContent d.content v
  ({ d with content := r.1 }, r.2)

/-- Assignment `d.name = v` on a whole `Data` instance. -/
def Data.setNameOn (d : Data) (v : PyVal) : Data × Option Err :=
  let r := Data.setName v
  ({ d with name := r.1 }, r.2)

/-- `Data.copy` (series.py lines 134-143): `new_data = Data()` (name
`None`, content `None`); if `self.name is not None`, re-assign it
through the name setter; then `new_data.content = self.content[:]`.
Slicing `None` or the `0` placeholder raises `TypeError` before the
content setter runs; slicing a 3-tuple yields the same 3-tuple, which
the setter then re-validates. -/
def Data.copy (d : Data) : Except Err Data :=
  let rn : Option String × Option Err :=
    match d.name with
    | some s => Data.setName (.str s)
    | Option.none => (Option.none, Option.none)
  match rn.2 with
  | some e => .error e
  | Option.none =>
    match d.content with
    | .triple a b c =>
        let rc := Data.setContent .null (.tup [.num a, .num b, .num c])
        match rc.2 with
        | some e => .error e
        | Option.none => .ok ⟨rn.1, rc.1⟩
    | _ => .error .sliceError

/-- `Data(content=item)` (series.py lines 49-52): `__init__` assigns
content first, then the (default `None`) name; an exception aborts the
construction, discarding the object. -/
def Data.new (c : PyVal) : Except Err Data :=
  let rc := Data.setContent .null c
  match rc.2 with
  | some e => .error e
  | Option.none =>
      let rn := Data.setName .pynone
      match rn.2 with
      | some e => .error e
      | Option.none => .ok ⟨rn.1, rc.1⟩

/-- `Data(name=n, content=c)`: content assigned first, then name. -/
def Data.init (n c : PyVal) : Except Err Data :=
  let rc := Data.setContent .null c
  match rc.2 with
  | some e => .error e
  | Option.none =>
      let rn := Data.setName n
      match rn.2 with
      | some e => .error e
      | Option.none => .ok ⟨rn.1, rc.1⟩

/-- `Data.__eq__` (series.py lines 145-148): structural equality of the
name and content fields. -/
def Data.eq (a b : Data) : Bool :=
  decide (a.name = b.name) && decide (a.content = b.content)

/-- `Data.__len__` (series.py lines 150-156): `len(self.content)`.
A stored 3-tuple has length 3; `len(None)` and `len(0)` raise
`TypeError`, modelled as `none`. -/
def Data.len (d : Data) : Option Nat :=
  match d.content with
  | .triple a b c => some ([a, b, c].length)
  | _ => Option.none

/-- One iteration of the `Series.content` loop (series.py lines
222-226): a `Data` element is copied, any other element is passed to
the `Data` constructor. -/
def normElem (x : PyVal) : Except Err Data :=
  match x with
  | .dataObj d => d.copy
  | _ => Data.new x

/-- The `Series.content` element loop (series.py lines 221-226):
`self._content = []`, then append one converted element at a time; an
exception propagates immediately, leaving the elements already appended
as the stored list. -/
def buildSeries : List PyVal → List Data × Option Err
  | [] => ([], Option.none)
  | x :: rest =>
      match normElem x with
      | .error e => ([], some e)
      | .ok nd =>
          let r := buildSeries rest
          (nd :: r.1, r.2)

/-- The `Series.content` property setter (series.py lines 199-226),
acting on the stored `_content` list: `None` and `[]` store `[]`; a
non-list stores `[]` and raises the series-type error; a list with at
least one raw number and at least one raw tuple raises the mixed-shape
error without assigning; otherwise the element loop runs. -/
def Series.setContent (prev : List Data) (content : PyVal) : List Data × Option Err :=
  match content with
  | .pynone => ([], Option.none)
  | .pylist xs =>
      if xs.length = 0 then ([], Option.none)
      else if xs.any isNum && xs.any isTup then (prev, some .seriesMixedShape)
      else buildSeries xs
  | _ => ([], some .seriesType)

/-- The `Series.name` property setter (series.py lines 240-249); its
body is identical to `Data.setName`. -/
def Series.setName (name : PyVal) : Option String × Option Err :=
  match name with
  | .str s => if 0 < s.length then (some s, Option.none) else (Option.none, some .nameType)
  | .pynone => (Option.none, Option.none)
  | _ => (Option.none, some .nameType)

/-- `type(x)` is `NoneType`. -/
def isPyNone : PyVal → Bool
  | .pynone => true
  | _ => false

/-- `type(x) is list`. -/
def isPyList : PyVal → Bool
  | .pylist _ => true
  | _ => false

/-- An element that is neither a number, nor a tuple, nor a `Data`
instance, nor `None` (the shapes the per-element `Data` construction
rejects with the content-type error). -/
def isRawInvalid : PyVal → Bool
  | .num _ => false
  | .tup _ => false
  | .dataObj _ => false
  | .pynone => false
  | _ => true

/-! ### Basic evaluation lemmas -/

theorem Data.setContent_pair (prev : StoredContent) (a b : Int) :
    Data.setContent prev (.tup [.num a, .num b]) = (.triple a b 0, Option.none) := rfl

theorem Data.setContent_triple (prev : StoredContent) (a b c : Int) :
    Data.setContent prev (.tup [.num a, .num b, .num c]) = (.triple a b c, Option.none) := rfl

/-- Every error the Data content setter raises is one of the three
content error kinds. -/
theorem Data.setContent_error_kinds (prev : StoredContent) (c : PyVal) (e : Err)
    (h : (Data.setContent prev c).2 = some e) :
    e = .contentType ∨ e = .contentArity ∨ e = .contentElemType := by
  cases c <;> simp only [Data.setContent] at h
  case tup xs => split_ifs at h <;> simp_all
  all_goals simp_all

/-- Every error the name setter raises is the name-type error. -/
theorem Data.setName_error_kind (v : PyVal) (e : Err)
    (h : (Data.setName v).2 = some e) : e = .nameType := by
  cases v <;> simp only [Data.setName] at h
  case str s => split_ifs at h <;> simp_all
  all_goals simp_all

/-- Evaluation of `Data.copy` on an instance holding a stored 3-tuple. -/
theorem Data.copy_eq_triple (nm : Option String) (a b c : Int) :
    Data.copy ⟨nm, .triple a b c⟩ =
      match nm with
      | some s =>
          if 0 < s.length then Except.ok ⟨some s, .triple a b c⟩
          else Except.error .nameType
      | Option.none => Except.ok ⟨Option.none, .triple a b c⟩ := by
  cases nm with
  | none => rfl
  | some s =>
      by_cases h : 0 < s.length <;>
        simp [Data.copy, Data.setName, h, Data.setContent_triple]

/-- Every error `Data.copy` raises is the slicing error or the name-type
error. -/
theorem Data.copy_error_kinds (d : Data) (e : Err)
    (h : d.copy = .error e) : e = .sliceError ∨ e = .nameType := by
  obtain ⟨nm, ct⟩ := d
  cases ct with
  | triple a b c =>
      rw [Data.copy_eq_triple] at h
      cases nm with
      | none => simp at h
      | some s =>
          by_cases hs : 0 < s.length <;> simp [hs] at h
          simp [h]
  | null =>
      cases nm with
      | none => simp [Data.copy] at h; simp [h]
      | some s =>
          by_cases hs : 0 < s.length <;>
            simp [Data.copy, Data.setName, hs] at h <;> simp [h]
  | zero =>
      cases nm with
      | none => simp [Data.copy] at h; simp [h]
      | some s =>
          by_cases hs : 0 < s.length <;>
            simp [Data.copy, Data.setName, hs] at h <;> simp [h]

/-- Every error of the `Data` constructor is a content error kind. -/
theorem Data.new_error_kinds (c : PyVal) (e : Err)
    (h : Data.new c = .error e) :
    e = .contentType ∨ e = .contentArity ∨ e = .contentElemType := by
  cases hrc : (Data.setContent .null c).2 with
  | none => simp [Data.new, hrc, Data.setName] at h
  | some e2 =>
      simp [Data.new, hrc] at h
      subst h
      exact Data.setContent_error_kinds .null c e2 hrc

/-- Every error raised inside the element loop is a content error, a
slicing error, or a name-type error: never a series-level error. -/
theorem normElem_error_kinds (x : PyVal) (e : Err)
    (h : normElem x = .error e) :
    e ≠ .seriesMixedShape ∧ e ≠ .seriesType := by
  cases x with
  | dataObj d =>
      rcases Data.copy_error_kinds d e h with h2 | h2 <;> subst h2 <;> simp
  | _ =>
      simp only [normElem] at h
      rcases Data.new_error_kinds _ e h with h2 | h2 | h2 <;> subst h2 <;> simp

theorem buildSeries_error_kinds (xs : List PyVal) (e : Err)
    (h : (buildSeries xs).2 = some e) :
    e ≠ .seriesMixedShape ∧ e ≠ .seriesType := by
  induction xs with
  | nil => simp [buildSeries] at h
  | cons x rest ih =>
      cases hx : normElem x with
      | error e2 =>
          simp [buildSeries, hx] at h
          cases h
          exact normElem_error_kinds x _ hx
      | ok nd =>
          simp [buildSeries, hx] at h
          exact ih h

/-! ### Claim C1 -/

/-- Claim C1: setting Data content succeeds with normalization — `None`
is stored as `None`, a numeric scalar `v` as `(v, 0, 0)`, a numeric
2-tuple `(a, b)` as `(a, b, 0)`, a numeric 3-tuple `(a, b, c)` as
itself, and no error is raised; the stored field (what the `content`
property getter returns) is exactly that normalized value. -/
theorem claim_c1_content_normalization (prev : StoredContent) (v a b c : Int) :
    Data.setContent prev .pynone = (.null, Option.none) ∧
    Data.setContent prev (.num v) = (.triple v 0 0, Option.none) ∧
    Data.setContent prev (.tup [.num a, .num b]) = (.triple a b 0, Option.none) ∧
    Data.setContent prev (.tup [.num a, .num b, .num c]) = (.triple a b c, Option.none) :=
  ⟨rfl, rfl, rfl, rfl⟩

/-! ### Claim C5 -/

/-- Claim C5: on a tuple, the Data content setter raises the arity
error exactly when the length is neither 2 nor 3, raises the
element-type error exactly when the length is 2 or 3 but some element
is not a number, and accepts every all-numeric tuple of length 2 or 3. -/
theorem claim_c5_tuple_validation (prev : StoredContent) (xs : List PyVal) :
    ((Data.setContent prev (.tup xs)).2 = some .contentArity ↔
      (xs.length ≠ 2 ∧ xs.length ≠ 3)) ∧
    ((Data.setContent prev (.tup xs)).2 = some .contentElemType ↔
      ((xs.length = 2 ∨ xs.length = 3) ∧ xs.any (fun x => !(isNum x)) = true)) ∧
    ((xs.length = 2 ∨ xs.length = 3) → xs.all isNum = true →
      (Data.setContent prev (.tup xs)).2 = Option.none) := by
  refine ⟨?_, ?_, ?_⟩
  · simp only [Data.setContent]
    split_ifs with h1 h2 h3 <;> simp_all
  · simp only [Data.setContent]
    split_ifs with h1 h2 h3 <;> simp_all <;> tauto
  · intro hlen hall
    simp only [Data.setContent]
    split_ifs with h1 h2 h3 <;> simp_all
    obtain ⟨x, hxmem, hx⟩ := h2
    simp [hall x hxmem] at hx

/-- Witness for C5: the all-numeric pair `(1, 2)` is accepted. -/
theorem claim_c5_tuple_validation_witness :
    (Data.setContent .null (.tup [.num 1, .num 2])).2 = Option.none :=
  (claim_c5_tuple_validation .null [.num 1, .num 2]).2.2 (by decide) (by decide)

/-! ### Claim C7 -/

/-- Counterexample to C7 as stated: the assignment of the 1-tuple `(1,)`
fails with the arity error, yet the stored content remains the previous
3-tuple `(1, 2, 3)`, not the numeric placeholder zero. -/
theorem claim_c7_counterexample :
    Data.setContent (.triple 1 2 3) (.tup [.num 1]) = (.triple 1 2 3, some .contentArity) ∧
    StoredContent.triple 1 2 3 ≠ .zero := by
  exact ⟨rfl, by decide⟩

/-- Claim C7 (amended): only the unknown-type failure stores the numeric
placeholder zero; the arity and element-type failures leave the stored
content unchanged. -/
theorem claim_c7_amended_placeholder (prev : StoredContent) (c : PyVal) :
    ((Data.setContent prev c).2 = some .contentType → (Data.setContent prev c).1 = .zero) ∧
    ((Data.setContent prev c).2 = some .contentArity → (Data.setContent prev c).1 = prev) ∧
    ((Data.setContent prev c).2 = some .contentElemType → (Data.setContent prev c).1 = prev) := by
  cases c <;> simp only [Data.setContent] <;> try simp
  case tup xs => split_ifs <;> simp_all

/-- Witness for C7 (amended): a string content stores the placeholder;
a failing 1-tuple leaves the previous stored triple in place. -/
theorem claim_c7_amended_placeholder_witness :
    (Data.setContent (.triple 1 2 3) (.str "x")).1 = .zero ∧
    (Data.setContent (.triple 1 2 3) (.tup [.num 1])).1 = .triple 1 2 3 :=
  ⟨(claim_c7_amended_placeholder (.triple 1 2 3) (.str "x")).1 rfl,
   (claim_c7_amended_placeholder (.triple 1 2 3) (.tup [.num 1])).2.1 rfl⟩

/-! ### Claim C8 -/

/-- Counterexample to C8 as stated: a Data constructed from the scalar
`5` stores the tuple `(5, 0, 0)`, so its length is 3, not 1. -/
theorem claim_c8_counterexample :
    Data.new (.num 5) = .ok ⟨Option.none, .triple 5 0 0⟩ ∧
    Data.len ⟨Option.none, .triple 5 0 0⟩ ≠ some 1 := by
  exact ⟨rfl, by decide⟩

/-- Claim C8 (amended): whether the content was set from a scalar, a
2-tuple, or a 3-tuple, the stored content is a 3-tuple and `len`
returns 3. -/
theorem claim_c8_amended_len (nm : Option String) (prev : StoredContent) (v a b c : Int) :
    Data.len ⟨nm, (Data.setContent prev (.num v)).1⟩ = some 3 ∧
    Data.len ⟨nm, (Data.setContent prev (.tup [.num a, .num b])).1⟩ = some 3 ∧
    Data.len ⟨nm, (Data.setContent prev (.tup [.num a, .num b, .num c])).1⟩ = some 3 :=
  ⟨rfl, rfl, rfl⟩

/-! ### Claim C2 -/

/-- Claim C2: a list raises the mixed-shape error exactly when it holds
at least one raw number and at least one raw tuple; `Data` elements are
neither, so they never trigger the check. -/
theorem claim_c2_mixed_shape (prev : List Data) (xs : List PyVal) :
    ((Series.setContent prev (.pylist xs)).2 = some .seriesMixedShape ↔
      (xs.any isNum = true ∧ xs.any isTup = true)) ∧
    (∀ d : Data, isNum (.dataObj d) = false ∧ isTup (.dataObj d) = false) := by
  refine ⟨⟨?_, ?_⟩, fun d => ⟨rfl, rfl⟩⟩
  · intro h
    simp only [Series.setContent] at h
    split_ifs at h with h0 h1
    · exact Bool.and_eq_true _ _ |>.mp h1
    · exact absurd rfl (buildSeries_error_kinds xs _ h).1
  · rintro ⟨hn, ht⟩
    have hne : xs.length ≠ 0 := by
      obtain ⟨x, hx, -⟩ := List.any_eq_true.mp hn
      cases xs
      · simp at hx
      · simp
    simp only [Series.setContent]
    rw [if_neg hne, if_pos (by rw [hn, ht]; rfl)]

/-! ### Claim C9 -/

/-- Counterexample to C9 as stated: a tuple is a Python sequence, yet
assigning it as Series content raises the series-type error (the code
tests `type(content) is not list`, not "is a sequence"). -/
theorem claim_c9_counterexample :
    Series.setContent [] (.tup [.num 1, .num 2]) = ([], some .seriesType) ∧
    isTup (.tup [.num 1, .num 2]) = true :=
  ⟨rfl, rfl⟩

/-- Claim C9 (amended): the series-type error is raised if and only if
the supplied content is neither `None` nor a list; every non-list value
— including non-list sequences such as tuples — is rejected. -/
theorem claim_c9_amended_series_type (prev : List Data) (c : PyVal) :
    (Series.setContent prev c).2 = some .seriesType ↔
      (isPyNone c = false ∧ isPyList c = false) := by
  cases c <;> simp [Series.setContent, isPyNone, isPyList]
  case pylist xs =>
    intro h
    split_ifs at h with h0 h1
    · simp at h
    · exact absurd rfl (buildSeries_error_kinds xs _ h).2

/-! ### Claim C4 -/

/-- Counterexample to C4 as stated: on a Data named `"a"`, the failed
assignment `d.name = 5` raises the name-type error but also overwrites
the stored name with `None`, so the instance is not left as it was. -/
theorem claim_c4_counterexample :
    (Data.setNameOn ⟨some "a", .triple 1 0 0⟩ (.num 5)).2 = some .nameType ∧
    (Data.setNameOn ⟨some "a", .triple 1 0 0⟩ (.num 5)).1.name = Option.none ∧
    (Option.none : Option String) ≠ some "a" := by
  refine ⟨rfl, rfl, by simp⟩

/-- Claim C4 (amended): failed mutations are not atomic but land in
definite states — a failed name assignment (Data or Series) stores
`None`; a failed Data content assignment stores the `0` placeholder on
the unknown-type error and keeps the previous content on the arity and
element-type errors; a failed Series content assignment stores `[]` on
the series-type error and keeps the previous content on the mixed-shape
error. -/
theorem claim_c4_amended_failure_states (v : PyVal) (prev : StoredContent) (sprev : List Data) :
    ((Data.setName v).2.isSome = true → (Data.setName v).1 = Option.none) ∧
    ((Series.setName v).2.isSome = true → (Series.setName v).1 = Option.none) ∧
    ((Data.setContent prev v).2 = some .contentType → (Data.setContent prev v).1 = .zero) ∧
    ((Data.setContent prev v).2 = some .contentArity →
      (Data.setContent prev v).1 = prev) ∧
    ((Data.setContent prev v).2 = some .contentElemType →
      (Data.setContent prev v).1 = prev) ∧
    ((Series.setContent sprev v).2 = some .seriesType →
      (Series.setContent sprev v).1 = []) ∧
    ((Series.setContent sprev v).2 = some .seriesMixedShape →
      (Series.setContent sprev v).1 = sprev) := by
  refine ⟨?_, ?_, ?_, ?_, ?_, ?_, ?_⟩
  · cases v <;> simp only [Data.setName] <;> try simp
    case str s => split_ifs <;> simp
  · cases v <;> simp only [Series.setName] <;> try simp
    case str s => split_ifs <;> simp
  · cases v <;> simp only [Data.setContent] <;> try simp
    case tup xs => split_ifs <;> simp_all
  · cases v <;> simp only [Data.setContent] <;> try simp
    case tup xs => split_ifs <;> simp_all
  · cases v <;> simp only [Data.setContent] <;> try simp
    case tup xs => split_ifs <;> simp_all
  · cases v <;> simp only [Series.setContent] <;> try simp
    case pylist xs =>
      intro h
      split_ifs at h with h0 h1
      · simp at h
      · exact absurd rfl (buildSeries_error_kinds xs _ h).2
  · cases v <;> simp only [Series.setContent] <;> try simp
    case pylist xs =>
      intro h
      split_ifs at h ⊢ with h0 h1
      · rfl
      · exact absurd rfl (buildSeries_error_kinds xs _ h).1

/-- Witness for C4 (amended): a numeric name assignment fails and
stores `None`; a mixed list leaves the previous series content. -/
theorem claim_c4_amended_failure_states_witness :
    (Data.setName (.num 5)).1 = Option.none ∧
    (Series.setContent [⟨Option.none, .triple 7 0 0⟩]
        (.pylist [.num 1, .tup [.num 2, .num 2]])).1 =
      [⟨Option.none, .triple 7 0 0⟩] :=
  ⟨(claim_c4_amended_failure_states (.num 5) .null []).1 rfl,
   (claim_c4_amended_failure_states (.pylist [.num 1, .tup [.num 2, .num 2]]) .null
      [⟨Option.none, .triple 7 0 0⟩]).2.2.2.2.2.2 rfl⟩

/-! ### Claim C6 -/

/-- Counterexample to C6 as stated: `Data()` is a valid construction
(name `None`, content `None`), yet copying it raises — `self.content[:]`
slices `None`. -/
theorem claim_c6_counterexample :
    Data.init .pynone .pynone = .ok ⟨Option.none, .null⟩ ∧
    Data.copy ⟨Option.none, .null⟩ = .error .sliceError :=
  ⟨rfl, rfl⟩

/-- Claim C6 (amended): for every valid `Data` whose content is a stored
3-tuple (and whose name, if present, is a non-empty string, as every
successfully stored name is), `copy` succeeds, returns an instance with
the same name and content, and the copy compares equal to the original
under `__eq__`; when the content is `None`, `copy` raises instead. Since
the copy re-validates a duplicated tuple, it shares no state with the
original. -/
theorem claim_c6_amended_copy (nm : Option String) (a b c : Int)
    (hnm : ∀ s, nm = some s → 0 < s.length) :
    Data.copy ⟨nm, .triple a b c⟩ = .ok ⟨nm, .triple a b c⟩ ∧
    Data.eq ⟨nm, .triple a b c⟩ ⟨nm, .triple a b c⟩ = true := by
  constructor
  · rw [Data.copy_eq_triple]
    cases nm with
    | none => rfl
    | some s => simp [hnm s rfl]
  · simp [Data.eq]

/-- Witness for C6 (amended): copying `Data('a', (1,2,3))`. -/
theorem claim_c6_amended_copy_witness :
    Data.copy ⟨some "a", .triple 1 2 3⟩ = .ok ⟨some "a", .triple 1 2 3⟩ :=
  (claim_c6_amended_copy (some "a") 1 2 3 (by intro s hs; cases hs; decide)).1

/-! ### Claim C3 -/

/-- When the element loop finishes without an exception, the stored
list pairs up with the input list element by element. -/
theorem buildSeries_ok (xs : List PyVal) (out : List Data)
    (h : buildSeries xs = (out, Option.none)) :
    out.length = xs.length ∧
    ∀ i (hi : i < xs.length) (ho : i < out.length),
      normElem (xs.get ⟨i, hi⟩) = .ok (out.get ⟨i, ho⟩) := by
  induction xs generalizing out with
  | nil =>
      simp [buildSeries] at h
      subst h
      exact ⟨rfl, fun i hi => absurd hi (Nat.not_lt_zero i)⟩
  | cons x rest ih =>
      cases hx : normElem x with
      | error e => simp [buildSeries, hx] at h
      | ok nd =>
          simp only [buildSeries, hx] at h
          rw [Prod.mk.injEq] at h
          obtain ⟨h1, h2⟩ := h
          have hrest : buildSeries rest = ((buildSeries rest).1, Option.none) := by
            rw [← h2]
          obtain ⟨ihlen, ihget⟩ := ih (buildSeries rest).1 hrest
          subst h1
          refine ⟨by simp [ihlen], ?_⟩
          intro i hi ho
          cases i with
          | zero => simpa using hx
          | succ n =>
              simpa using ihget n (Nat.lt_of_succ_lt_succ hi) (Nat.lt_of_succ_lt_succ ho)

/-- Claim C3: every accepted list is stored with the same length and
order, with each element converted by the loop body — a `Data` element
by `copy`, a scalar `v` to a fresh `Data` with content `(v, 0, 0)`, a
tuple to a fresh `Data` with the normalized 3-tuple; and both `None`
and the empty list yield the empty series. -/
theorem claim_c3_accepted_lists (prev : List Data) (xs : List PyVal) (out : List Data)
    (h : Series.setContent prev (.pylist xs) = (out, Option.none)) :
    (out.length = xs.length ∧
      ∀ i (hi : i < xs.length) (ho : i < out.length),
        normElem (xs.get ⟨i, hi⟩) = .ok (out.get ⟨i, ho⟩)) ∧
    Series.setContent prev .pynone = ([], Option.none) ∧
    Series.setContent prev (.pylist []) = ([], Option.none) ∧
    (∀ d : Data, normElem (.dataObj d) = d.copy) ∧
    (∀ v : Int, normElem (.num v) = .ok ⟨Option.none, .triple v 0 0⟩) ∧
    (∀ a b : Int, normElem (.tup [.num a, .num b]) = .ok ⟨Option.none, .triple a b 0⟩) ∧
    (∀ a b c : Int,
      normElem (.tup [.num a, .num b, .num c]) = .ok ⟨Option.none, .triple a b c⟩) := by
  refine ⟨?_, rfl, rfl, fun d => rfl, fun v => rfl, fun a b => rfl, fun a b c => rfl⟩
  simp only [Series.setContent] at h
  split_ifs at h with h0 h1
  · have hxs : xs = [] := List.length_eq_zero.mp h0
    subst hxs
    rw [Prod.mk.injEq] at h
    obtain ⟨h1, -⟩ := h
    subst h1
    exact ⟨rfl, fun i hi => absurd hi (Nat.not_lt_zero i)⟩
  · rw [Prod.mk.injEq] at h
    simp at h
  · exact buildSeries_ok xs out h

/-- Witness for C3: the list `[1]` is accepted and stored as one Data
with content `(1, 0, 0)`. -/
theorem claim_c3_accepted_lists_witness :
    ([(⟨Option.none, .triple 1 0 0⟩ : Data)].length = [PyVal.num 1].length) :=
  (claim_c3_accepted_lists [] [.num 1] [⟨Option.none, .triple 1 0 0⟩] rfl).1.1

/-! ### Claim C10 -/

/-- If the element loop finishes a prefix without an exception, running
it on the prefix followed by more elements first reproduces the prefix's
conversions. -/
theorem buildSeries_append_ok (pre ys : List PyVal)
    (h : (buildSeries pre).2 = Option.none) :
    buildSeries (pre ++ ys) =
      ((buildSeries pre).1 ++ (buildSeries ys).1, (buildSeries ys).2) := by
  induction pre with
  | nil => simp [buildSeries]
  | cons x rest ih =>
      cases hx : normElem x with
      | error e => simp [buildSeries, hx] at h
      | ok nd =>
          simp only [List.cons_append, buildSeries, hx] at h ⊢
          simp [ih h]

/-- An element that is neither a number, nor a tuple, nor a `Data`
instance, nor `None` makes the `Data` constructor raise the
content-type error. -/
theorem normElem_rawInvalid (x : PyVal) (h : isRawInvalid x = true) :
    normElem x = .error .contentType := by
  cases x <;> simp [isRawInvalid] at h <;> rfl

/-- Counterexample to C10 as stated: `None` is neither a number, nor a
tuple, nor a `Data` instance, yet `Series(content=[None])` raises no
error at all — `Data(content=None)` succeeds — so the quantification
over "an element that is neither a number, a tuple, nor a Data
instance" is too broad. -/
theorem claim_c10_counterexample :
    isNum .pynone = false ∧ isTup .pynone = false ∧
    Series.setContent [] (.pylist [.pynone]) =
      ([⟨Option.none, .null⟩], Option.none) :=
  ⟨rfl, rfl, rfl⟩

/-- Claim C10 (amended): if a list passes the type and mixed-shape
checks and contains an element that is neither a number, nor a tuple,
nor a `Data` instance, nor `None`, preceded by elements the loop
converts without error, then the assignment raises the content-type
error and the stored content is the list of already-normalized
preceding elements, regardless of the previous series content. -/
theorem claim_c10_amended_loop_failure (prev : List Data) (pre rest : List PyVal)
    (bad : PyVal) (hbad : isRawInvalid bad = true)
    (hmix : ((pre ++ bad :: rest).any isNum && (pre ++ bad :: rest).any isTup) = false)
    (hpre : (buildSeries pre).2 = Option.none) :
    Series.setContent prev (.pylist (pre ++ bad :: rest)) =
      ((buildSeries pre).1, some .contentType) := by
  simp only [Series.setContent]
  rw [if_neg (by simp : ¬(pre ++ bad :: rest).length = 0),
      if_neg (show ¬((pre ++ bad :: rest).any isNum && (pre ++ bad :: rest).any isTup) = true by
        rw [hmix]; exact Bool.false_ne_true)]
  rw [buildSeries_append_ok pre (bad :: rest) hpre]
  simp [buildSeries, normElem_rawInvalid bad hbad]

/-- Witness for C10 (amended): `[1, "x"]` stores the converted `1` and
raises the content-type error, discarding the previous content. -/
theorem claim_c10_amended_loop_failure_witness :
    Series.setContent [⟨Option.none, .triple 9 9 9⟩] (.pylist ([.num 1] ++ .str "x" :: [])) =
      ((buildSeries [.num 1]).1, some .contentType) :=
  claim_c10_amended_loop_failure [⟨Option.none, .triple 9 9 9⟩] [.num 1] [] (.str "x")
    rfl rfl rfl

/-- Witness for C2: `[1, (2,2)]` raises the mixed-shape error. -/
theorem claim_c2_mixed_shape_witness :
    (Series.setContent [] (.pylist [.num 1, .tup [.num 2, .num 2]])).2 =
      some .seriesMixedShape :=
  (claim_c2_mixed_shape [] [.num 1, .tup [.num 2, .num 2]]).1.mpr ⟨rfl, rfl⟩

/-- Witness for C9 (amended): a string content raises the series-type
error. -/
theorem claim_c9_amended_series_type_witness :
    (Series.setContent [] (.str "s")).2 = some .seriesType :=
  (claim_c9_amended_series_type [] (.str "s")).mpr ⟨rfl, rfl⟩
